import Mathlib

/-!
Verification of the hawkeye repository's specification against a shallow
embedding of its source code.

The embedding covers:
* `hawkeye_core` models as they appear in `src/src/models.rs` (the `models`
  namespace): the `Watcher` resource, its validation, and its JSON
  (de)serialisation at the JSON-value level;
* the control-plane handlers of `src/hawkeye-api/src/handlers.rs`
  (the `handlers` namespace): status derivation, start and delete;
* the bearer-token check of `src/hawkeye-api/src/auth.rs` (the `auth`
  namespace);
* the action runtime of `src/src/actions.rs` (the `actions` namespace);
* the slate matcher of `src/src/img_detector.rs` (the `img_detector`
  namespace);
* the worker pipeline construction of `src/hawkeye-worker/src/video_stream.rs`
  (the `video_stream` namespace).

Machine integers (`u32`, `u8`, replica counts) are modelled as `Nat`/`Int`;
no arithmetic in the embedded code can overflow them.  Wall-clock instants
are modelled as `Nat` milliseconds.  Fallible operations return `Option` or
`Except`.  External collaborators (the Kubernetes client, the dssim image
library) enter as explicit parameters of the functions that call them.
-/

namespace Hawkeye

/-- Prefix test on character lists: `leadingMatch p s` is true iff `p`
is an initial segment of `s` (Rust `str::starts_with` on the underlying
character sequence).  Structural, so it computes by `rfl`. -/
def leadingMatch : List Char → List Char → Bool
  | [], _ => true
  | _ :: _, [] => false
  | p :: ps, c :: cs => p == c && leadingMatch ps cs

/-- True iff `pat` occurs as a contiguous subsequence of the list
(Rust `str::contains`). -/
def containsSeq (pat : List Char) : List Char → Bool
  | [] => leadingMatch pat []
  | c :: rest => leadingMatch pat (c :: rest) || containsSeq pat rest

/-- Rust `str::starts_with` on `String`s, via the character sequence. -/
def strStartsWith (s pre : String) : Bool :=
  leadingMatch pre.toList s.toList

namespace handlers

/-- Status enum of `hawkeye_core::models` as used by
`src/hawkeye-api/src/handlers.rs`.  The crate file itself is not under
`src/`; the four variants are exactly the ones the handlers match on
(`Running`, `Ready`, `Updating`, `Error`), and the spec calls `Updating`
"Pending".  Serialised lowercase (spec section 4.1). -/
inductive Status where
  | Running
  | Ready
  | Updating
  | Error
deriving DecidableEq, Repr

/-- Serde deserialisation of a `Status` from its lowercase string form,
as performed by `serde_json::from_str(&format!("\"{}\"", status))` in
`get_watcher_status`; an unrecognised string fails (`.ok()` gives `None`). -/
def parseStatus (s : String) : Option Status :=
  if s = "running" then some Status.Running
  else if s = "ready" then some Status.Ready
  else if s = "updating" then some Status.Updating
  else if s = "error" then some Status.Error
  else none

/-- The part of the Kubernetes `DeploymentStatus` read by the handlers:
`available_replicas : Option<i32>`. -/
structure DeploymentStatus where
  available_replicas : Option Int
deriving DecidableEq, Repr

/-- The part of a Kubernetes `Deployment` read by the handlers: its
metadata labels (an optional string map, modelled as an association list)
and its optional status. -/
structure Deployment where
  labels : Option (List (String × String))
  status : Option DeploymentStatus
deriving DecidableEq, Repr

/-- `WatcherStatus::get_watcher_status` from
`src/hawkeye-api/src/handlers.rs` lines 473-505.  Reads the
`target_status` label (missing map, missing key or unparsable value all
collapse to `Error` via `unwrap_or`), then joins it with the observed
`available_replicas` when a deployment status is present. -/
def get_watcher_status (d : Deployment) : Status :=
  let target_status : Status :=
    (((d.labels.map (fun labels =>
        (labels.lookup "target_status").map parseStatus)).join).join).getD Status.Error
  match d.status with
  | none => Status.Error
  | some st =>
      let deploy_status :=
        if (st.available_replicas.getD 0) > 0 then Status.Running else Status.Ready
      match deploy_status, target_status with
      | Status.Running, Status.Running => Status.Running
      | Status.Ready, Status.Ready => Status.Ready
      | Status.Ready, Status.Running => Status.Updating
      | Status.Running, Status.Ready => Status.Updating
      | _, _ => Status.Error

/-- The raw `target_status` label value of a deployment, when present. -/
def targetLabel (d : Deployment) : Option String :=
  d.labels.bind (fun l => l.lookup "target_status")

/-- A Kubernetes mutation issued by a handler against the watcher's
deployment, recorded in issue order. -/
inductive K8sOp where
  | patchScale (replicas : Int)
  | patchTargetStatus (target : Status)
deriving DecidableEq, Repr

/-- The observable outcome of a handler: HTTP status code, JSON message
body (`none` for the empty `json!({})` body), and the Kubernetes
mutations issued. -/
structure HandlerResponse where
  code : Nat
  message : Option String
  ops : List K8sOp
deriving DecidableEq, Repr

/-- `start_watcher` from `src/hawkeye-api/src/handlers.rs` lines 283-357.
The deployment lookup result is passed in explicitly (`none` when the
Kubernetes `get` for `hawkeye-deploy-<id>` failed). -/
def start_watcher (deployment : Option Deployment) : HandlerResponse :=
  match deployment with
  | none => { code := 404, message := none, ops := [] }
  | some d =>
      match get_watcher_status d with
      | Status.Running =>
          { code := 409, message := some "Watcher is already running", ops := [] }
      | Status.Updating =>
          { code := 409, message := some "Watcher is updating", ops := [] }
      | Status.Ready =>
          { code := 200, message := some "Watcher is starting",
            ops := [K8sOp.patchScale 1, K8sOp.patchTargetStatus Status.Running] }
      | Status.Error =>
          { code := 406, message := some "Watcher in error state cannot be set to running",
            ops := [] }

/-- Outcome of a Kubernetes delete call as the handler observes it:
`Ok(..)` or `Err(..)` (the not-found response surfaces as `Err`). -/
inductive DeleteOutcome where
  | ok
  | err
deriving DecidableEq, Repr

/-- `delete_watcher` from `src/hawkeye-api/src/handlers.rs` lines 436-467.
The outcomes of the three delete calls are passed in; the function
returns the handler response together with the names of the objects it
issued deletions for, in issue order.  The results of the deployment and
config-map deletions are discarded (`let _ = ...` in the source); only
the service deletion's outcome is inspected. -/
def delete_watcher (id : String) (deployDelete configDelete serviceDelete : DeleteOutcome) :
    HandlerResponse × List String :=
  let trace := ["hawkeye-deploy-" ++ id, "hawkeye-config-" ++ id, "hawkeye-vid-svc-" ++ id]
  match deployDelete, configDelete, serviceDelete with
  | _, _, DeleteOutcome.ok =>
      ({ code := 200, message := some "Watcher has been deleted", ops := [] }, trace)
  | _, _, DeleteOutcome.err =>
      ({ code := 404, message := some "Watcher does not exist", ops := [] }, trace)

end handlers

namespace models

/-- `VideoMode` from `src/src/models.rs` lines 113-118, serialised
lowercase. -/
inductive VideoMode where
  | Slate
  | Content
deriving DecidableEq, Repr

/-- `Status` from `src/src/models.rs` lines 57-63, serialised lowercase. -/
inductive Status where
  | Running
  | Ready
  | Error
deriving DecidableEq, Repr

/-- `Container` from `src/src/models.rs` lines 86-91, serialised
kebab-case. -/
inductive Container where
  | MpegTs
  | Fmp4
deriving DecidableEq, Repr

/-- `Codec` from `src/src/models.rs` lines 93-98, serialised lowercase. -/
inductive Codec where
  | H264
  | H265
deriving DecidableEq, Repr

/-- `Protocol` from `src/src/models.rs` lines 100-104: internally tagged
under the key `protocol`, lowercase. -/
inductive Protocol where
  | Rtp
deriving DecidableEq, Repr

/-- `HttpMethod` from `src/src/models.rs` lines 180-187 (no rename). -/
inductive HttpMethod where
  | POST
  | GET
  | PUT
  | PATCH
  | DELETE
deriving DecidableEq, Repr

/-- `HttpAuth` from `src/src/models.rs` lines 201-205: externally tagged,
lowercase. -/
inductive HttpAuth where
  | Basic (username : String) (password : String)
deriving DecidableEq, Repr

/-- `HttpCall` from `src/src/models.rs` lines 167-178, with
`skip_serializing_none`.  The `headers` HashMap is modelled as an
association list. -/
structure HttpCall where
  method : HttpMethod
  url : String
  description : Option String
  authorization : Option HttpAuth
  headers : Option (List (String × String))
  body : Option String
  retries : Option Nat
  timeout : Option Nat
deriving DecidableEq, Repr

/-- `Action` from `src/src/models.rs` lines 120-128: internally tagged
under the key `type`, snake_case (the test-only `FakeAction` variant is
compiled out of release builds and not modelled). -/
inductive Action where
  | HttpCall (call : HttpCall)
deriving DecidableEq, Repr

/-- `Transition` from `src/src/models.rs` lines 106-111. -/
structure Transition where
  «from» : VideoMode
  «to» : VideoMode
  actions : List Action
deriving DecidableEq, Repr

/-- `Source` from `src/src/models.rs` lines 65-71. -/
structure Source where
  ingest_port : Nat
  container : Container
  codec : Codec
  transport : Protocol
deriving DecidableEq, Repr

/-- `Watcher` from `src/src/models.rs` lines 11-20, with
`skip_serializing_none`. -/
structure Watcher where
  id : Option String
  description : Option String
  slate_url : String
  status : Option Status
  source : Source
  transitions : List Transition
deriving DecidableEq, Repr

/-- `Source::is_valid` from `src/src/models.rs` lines 73-84: the ingest
port must lie strictly between 1024 and 60000. -/
def Source.is_valid (s : Source) : Bool :=
  s.ingest_port > 1024 && s.ingest_port < 60000

/-- `Watcher::is_valid` from `src/src/models.rs` lines 22-32: the slate
URL must start with one of the three recognised schemes, and the source
must be valid.  Nothing else is inspected. -/
def Watcher.is_valid (w : Watcher) : Bool :=
  if strStartsWith w.slate_url "http://" || strStartsWith w.slate_url "https://"
      || strStartsWith w.slate_url "file://" then
    w.source.is_valid
  else
    false

/-- Modelled from the spec: "validation of each Action's URL (scheme
present)", the third conjunct of claim C5's validity predicate.  A URL
has a scheme present when it contains the separator sequence. -/
def actionUrlHasScheme (a : Action) : Bool :=
  match a with
  | Action.HttpCall c => containsSeq "://".toList c.url.toList

/-- Modelled from the spec: claim C5's full validity predicate — slate
URL scheme, port range, and every action URL carrying a scheme. -/
def claimValid (w : Watcher) : Bool :=
  (strStartsWith w.slate_url "http://" || strStartsWith w.slate_url "https://"
    || strStartsWith w.slate_url "file://")
  && (w.source.ingest_port > 1024 && w.source.ingest_port < 60000)
  && w.transitions.all (fun t => t.actions.all actionUrlHasScheme)

/-- JSON values at the `serde_json` value level.  The textual printing
and parsing layer belongs to the external `serde_json` crate; the
derive attributes of `src/src/models.rs` define the mapping between
model values and JSON trees, and that mapping is what is embedded.
Object key order follows serialisation order; all numeric fields of the
model are unsigned integers. -/
inductive Json where
  | null : Json
  | bool (b : Bool) : Json
  | num (n : Nat) : Json
  | str (s : String) : Json
  | arr (elems : List Json) : Json
  | obj (fields : List (String × Json)) : Json

/-- A field of a `skip_serializing_none` struct: absent options produce
no key at all. -/
def optField (name : String) (v : Option Json) : List (String × Json) :=
  match v with
  | none => []
  | some j => [(name, j)]

/-- Expect a JSON string. -/
def asStr : Json → Option String
  | Json.str s => some s
  | _ => none

/-- Expect a JSON number. -/
def asNat : Json → Option Nat
  | Json.num n => some n
  | _ => none

/-- Deserialise an optional field: a missing key is `none`, a present
key must parse. -/
def getOptWith (fields : List (String × Json)) (name : String)
    (f : Json → Option α) : Option (Option α) :=
  match fields.lookup name with
  | none => some none
  | some j => (f j).map some

/-- Whether a serialised object carries the given key. -/
def Json.hasKey (j : Json) (name : String) : Bool :=
  match j with
  | Json.obj fields => (fields.lookup name).isSome
  | _ => false

/-- Serde serialisation of `VideoMode` (lowercase). -/
def VideoMode.toJson : VideoMode → Json
  | VideoMode.Slate => Json.str "slate"
  | VideoMode.Content => Json.str "content"

/-- Serde deserialisation of `VideoMode`. -/
def VideoMode.fromJson : Json → Option VideoMode
  | Json.str "slate" => some VideoMode.Slate
  | Json.str "content" => some VideoMode.Content
  | _ => none

/-- Serde serialisation of `Status` (lowercase). -/
def Status.toJson : Status → Json
  | Status.Running => Json.str "running"
  | Status.Ready => Json.str "ready"
  | Status.Error => Json.str "error"

/-- Serde deserialisation of `Status`. -/
def Status.fromJson : Json → Option Status
  | Json.str "running" => some Status.Running
  | Json.str "ready" => some Status.Ready
  | Json.str "error" => some Status.Error
  | _ => none

/-- Serde serialisation of `Container` (kebab-case). -/
def Container.toJson : Container → Json
  | Container.MpegTs => Json.str "mpeg-ts"
  | Container.Fmp4 => Json.str "fmp4"

/-- Serde deserialisation of `Container`. -/
def Container.fromJson : Json → Option Container
  | Json.str "mpeg-ts" => some Container.MpegTs
  | Json.str "fmp4" => some Container.Fmp4
  | _ => none

/-- Serde serialisation of `Codec` (lowercase). -/
def Codec.toJson : Codec → Json
  | Codec.H264 => Json.str "h264"
  | Codec.H265 => Json.str "h265"

/-- Serde deserialisation of `Codec`. -/
def Codec.fromJson : Json → Option Codec
  | Json.str "h264" => some Codec.H264
  | Json.str "h265" => some Codec.H265
  | _ => none

/-- Serde serialisation of `Protocol`: internally tagged under
`protocol`, lowercase, no payload. -/
def Protocol.toJson : Protocol → Json
  | Protocol.Rtp => Json.obj [("protocol", Json.str "rtp")]

/-- Serde deserialisation of `Protocol`. -/
def Protocol.fromJson : Json → Option Protocol
  | Json.obj fields =>
      match fields.lookup "protocol" with
      | some (Json.str "rtp") => some Protocol.Rtp
      | _ => none
  | _ => none

/-- Serde serialisation of `HttpMethod` (no rename). -/
def HttpMethod.toJson : HttpMethod → Json
  | HttpMethod.POST => Json.str "POST"
  | HttpMethod.GET => Json.str "GET"
  | HttpMethod.PUT => Json.str "PUT"
  | HttpMethod.PATCH => Json.str "PATCH"
  | HttpMethod.DELETE => Json.str "DELETE"

/-- Serde deserialisation of `HttpMethod`. -/
def HttpMethod.fromJson : Json → Option HttpMethod
  | Json.str "POST" => some HttpMethod.POST
  | Json.str "GET" => some HttpMethod.GET
  | Json.str "PUT" => some HttpMethod.PUT
  | Json.str "PATCH" => some HttpMethod.PATCH
  | Json.str "DELETE" => some HttpMethod.DELETE
  | _ => none

/-- Serde serialisation of `HttpAuth`: externally tagged, lowercase. -/
def HttpAuth.toJson : HttpAuth → Json
  | HttpAuth.Basic u p =>
      Json.obj [("basic", Json.obj [("username", Json.str u), ("password", Json.str p)])]

/-- Serde deserialisation of `HttpAuth`. -/
def HttpAuth.fromJson : Json → Option HttpAuth
  | Json.obj fields =>
      match fields.lookup "basic" with
      | some (Json.obj inner) =>
          match inner.lookup "username", inner.lookup "password" with
          | some (Json.str u), some (Json.str p) => some (HttpAuth.Basic u p)
          | _, _ => none
      | _ => none
  | _ => none

/-- Serialisation of the `headers` map (string-valued object). -/
def headersToJson (hs : List (String × String)) : Json :=
  Json.obj (hs.map (fun p => (p.1, Json.str p.2)))

/-- Deserialise the pairs of a string-valued object. -/
def headerPairs : List (String × Json) → Option (List (String × String))
  | [] => some []
  | (k, v) :: rest =>
      match asStr v with
      | none => none
      | some sv => (headerPairs rest).map (fun tl => (k, sv) :: tl)

/-- Deserialisation of the `headers` map. -/
def headersFromJson : Json → Option (List (String × String))
  | Json.obj fields => headerPairs fields
  | _ => none

/-- The serialised fields of an `HttpCall` in declaration order, with
`skip_serializing_none` omitting absent options. -/
def HttpCall.fieldsToJson (c : HttpCall) : List (String × Json) :=
  [("method", c.method.toJson), ("url", Json.str c.url)]
  ++ optField "description" (c.description.map Json.str)
  ++ optField "authorization" (c.authorization.map HttpAuth.toJson)
  ++ optField "headers" (c.headers.map headersToJson)
  ++ optField "body" (c.body.map Json.str)
  ++ optField "retries" (c.retries.map Json.num)
  ++ optField "timeout" (c.timeout.map Json.num)

/-- Deserialisation of an `HttpCall` from an object's fields (extra
keys such as the `type` tag are ignored, as serde does by default). -/
def HttpCall.fromFields (fields : List (String × Json)) : Option HttpCall := do
  let method ← (fields.lookup "method").bind HttpMethod.fromJson
  let url ← (fields.lookup "url").bind asStr
  let description ← getOptWith fields "description" asStr
  let authorization ← getOptWith fields "authorization" HttpAuth.fromJson
  let headers ← getOptWith fields "headers" headersFromJson
  let body ← getOptWith fields "body" asStr
  let retries ← getOptWith fields "retries" asNat
  let timeout ← getOptWith fields "timeout" asNat
  pure ⟨method, url, description, authorization, headers, body, retries, timeout⟩

/-- Serde serialisation of `Action`: internally tagged under `type`,
snake_case, so the tag key precedes the variant's own fields. -/
def Action.toJson : Action → Json
  | Action.HttpCall c => Json.obj (("type", Json.str "http_call") :: c.fieldsToJson)

/-- Serde deserialisation of `Action`. -/
def Action.fromJson : Json → Option Action
  | Json.obj fields =>
      match (fields.lookup "type").bind asStr with
      | some "http_call" => (HttpCall.fromFields fields).map Action.HttpCall
      | _ => none
  | _ => none

/-- Deserialise every element of a JSON array. -/
def parseList (f : Json → Option α) : List Json → Option (List α)
  | [] => some []
  | j :: rest =>
      match f j with
      | none => none
      | some a => (parseList f rest).map (fun tl => a :: tl)

/-- Serde serialisation of `Transition`. -/
def Transition.toJson (t : Transition) : Json :=
  Json.obj [("from", VideoMode.toJson t.«from»), ("to", VideoMode.toJson t.«to»),
    ("actions", Json.arr (t.actions.map Action.toJson))]

/-- Serde deserialisation of `Transition`. -/
def Transition.fromJson : Json → Option Transition
  | Json.obj fields => do
      let f ← (fields.lookup "from").bind VideoMode.fromJson
      let t ← (fields.lookup "to").bind VideoMode.fromJson
      let acts ←
        match fields.lookup "actions" with
        | some (Json.arr elems) => parseList Action.fromJson elems
        | _ => none
      pure ⟨f, t, acts⟩
  | _ => none

/-- Serde serialisation of `Source` (no optional fields). -/
def Source.toJson (s : Source) : Json :=
  Json.obj [("ingest_port", Json.num s.ingest_port),
    ("container", Container.toJson s.container),
    ("codec", Codec.toJson s.codec),
    ("transport", Protocol.toJson s.transport)]

/-- Serde deserialisation of `Source`. -/
def Source.fromJson : Json → Option Source
  | Json.obj fields => do
      let port ← (fields.lookup "ingest_port").bind asNat
      let container ← (fields.lookup "container").bind Container.fromJson
      let codec ← (fields.lookup "codec").bind Codec.fromJson
      let transport ← (fields.lookup "transport").bind Protocol.fromJson
      pure ⟨port, container, codec, transport⟩
  | _ => none

/-- Serde serialisation of `Watcher` with `skip_serializing_none`,
fields in declaration order. -/
def Watcher.toJson (w : Watcher) : Json :=
  Json.obj (optField "id" (w.id.map Json.str)
    ++ optField "description" (w.description.map Json.str)
    ++ [("slate_url", Json.str w.slate_url)]
    ++ optField "status" (w.status.map Status.toJson)
    ++ [("source", Source.toJson w.source),
        ("transitions", Json.arr (w.transitions.map Transition.toJson))])

/-- Serde deserialisation of `Watcher` (`parse` of the spec). -/
def Watcher.fromJson : Json → Option Watcher
  | Json.obj fields => do
      let id ← getOptWith fields "id" asStr
      let description ← getOptWith fields "description" asStr
      let slate_url ← (fields.lookup "slate_url").bind asStr
      let status ← getOptWith fields "status" Status.fromJson
      let source ← (fields.lookup "source").bind Source.fromJson
      let transitions ←
        match fields.lookup "transitions" with
        | some (Json.arr elems) => parseList Transition.fromJson elems
        | _ => none
      pure ⟨id, description, slate_url, status, source, transitions⟩
  | _ => none

/-- A fully populated valid watcher, shaped like the repository's
`fixtures/watcher.json` test fixture. -/
def watcherFixture : Watcher :=
  ⟨some "ee21fc9a-7225-450b-a2a7-2faf914e35b8",
    some "UEFA 2020 - Lyon vs. Bayern",
    "file://./resources/slate_120px.jpg",
    some Status.Running,
    ⟨5000, Container.MpegTs, Codec.H264, Protocol.Rtp⟩,
    [⟨VideoMode.Content, VideoMode.Slate,
      [Action.HttpCall ⟨HttpMethod.POST,
        "http://non-existent.cbs.com/v1/organization/cbsa/channel/slate4/ad-break",
        some "Trigger AdBreak using API",
        some (HttpAuth.Basic "dev_user" "something"),
        some [("Content-Type", "application/json")],
        some "duration-300", some 3, some 10⟩]⟩,
     ⟨VideoMode.Slate, VideoMode.Content,
      [Action.HttpCall ⟨HttpMethod.DELETE,
        "http://non-existent.cbs.com/v1/organization/cbsa/channel/slate4/ad-break",
        some "Use dump out of AdBreak API call",
        some (HttpAuth.Basic "dev_user" "something"),
        none, none, none, some 10⟩]⟩]⟩

/-- A watcher with a valid slate URL and port but an action URL with no
scheme at all. -/
def watcherNoSchemeAction : Watcher :=
  ⟨none, none, "http://example.com/slate.png", none,
    ⟨5000, Container.MpegTs, Codec.H264, Protocol.Rtp⟩,
    [⟨VideoMode.Content, VideoMode.Slate,
      [Action.HttpCall ⟨HttpMethod.POST, "not a url", none, none, none, none, none, none⟩]⟩]⟩

end models

namespace auth

/-- Rust `str::replace(pat, "")` on character lists: scan left to right
and delete each leftmost non-overlapping occurrence of `pat`.  The
`fuel` argument bounds the recursion by the input length so the
definition is structural and computes by `rfl`. -/
def removeAllFuel (pat : List Char) : Nat → List Char → List Char
  | _, [] => []
  | 0, s => s
  | fuel + 1, c :: rest =>
      if !pat.isEmpty && leadingMatch pat (c :: rest) then
        removeAllFuel pat fuel (List.drop pat.length (c :: rest))
      else
        c :: removeAllFuel pat fuel rest

/-- Delete every occurrence of `pat` from `s` (Rust
`s.replace(pat, "")`). -/
def removeAll (pat s : List Char) : List Char :=
  removeAllFuel pat s.length s

/-- The pattern `"Bearer "` removed by the token check. -/
def bearerPat : List Char := "Bearer ".toList

/-- `verify_token` from `src/hawkeye-api/src/auth.rs` lines 15-21: the
header is accepted iff deleting every occurrence of `"Bearer "` from it
yields exactly the fixed token. -/
def verify_token (auth_header : String) (fixed_token : String) : Bool :=
  removeAll bearerPat auth_header.toList == fixed_token.toList

end auth

namespace img_detector

/-- `SlateDetector::is_match` from `src/src/img_detector.rs` lines
30-39.  Decoding the buffers and running the dssim comparison are
external library calls (`load_image`, `dssim`); they enter through the
`compare` parameter, which returns the dissimilarity score of two byte
buffers as a rational standing for the `f64`.  `(val * 1000f64) as u32`
truncates toward zero and saturates below at 0, which
`Int.toNat ∘ Int.floor` reproduces for every score that fits in `u32`;
the saturation above `u32::MAX` cannot change the comparison with 900.
The frame matches iff the scaled integer is at most 900. -/
def is_match (compare : List Nat → List Nat → ℚ) (slate frame : List Nat) : Bool :=
  let val : ℚ := compare slate frame
  let scaled : Nat := (⌊val * 1000⌋).toNat
  scaled ≤ 900

end img_detector

namespace video_stream

/-- Modelled from the spec: `Container` of `hawkeye_core::models`, whose
crate file is not under `src/`.  The spec admits `{MpegTs, RawVideo}`
(section 3); the older in-repo `src/src/models.rs` additionally declares
`Fmp4`, and the worker's match arms name `MpegTs` and `RawVideo`, so all
three variants are modelled. -/
inductive Container where
  | MpegTs
  | RawVideo
  | Fmp4
deriving DecidableEq, Repr

/-- Modelled from the spec: `Codec` of `hawkeye_core::models` (crate
file not under `src/`); the spec admits `{H264}` and
`src/src/models.rs` additionally declares `H265`. -/
inductive Codec where
  | H264
  | H265
deriving DecidableEq, Repr

/-- Rust `Debug` rendering of a `Container`, as interpolated by the
error message of `create_pipeline`. -/
def Container.debugStr : Container → String
  | Container.MpegTs => "MpegTs"
  | Container.RawVideo => "RawVideo"
  | Container.Fmp4 => "Fmp4"

/-- Rust `Debug` rendering of a `Codec`. -/
def Codec.debugStr : Codec → String
  | Codec.H264 => "H264"
  | Codec.H265 => "H265"

/-- `create_pipeline` from `src/hawkeye-worker/src/video_stream.rs`
lines 38-63, restricted to the pipeline-description selection, which is
the only part that depends on `(container, codec)`; it runs before any
stream is ingested.  Returns the GStreamer launch description on
success and the `Unsupported` error message otherwise. -/
def create_pipeline (container : Container) (codec : Codec)
    (ingest_port width height : Nat) : Except String String :=
  match container, codec with
  | Container.MpegTs, Codec.H264 =>
      Except.ok ("udpsrc port=" ++ toString ingest_port
        ++ " caps=\"application/x-rtp, media=(string)video, clock-rate=(int)90000, encoding-name=(string)MP2T, payload=(int)33\" ! .recv_rtp_sink_0 rtpbin ! rtpmp2tdepay ! tsdemux ! h264parse ! avdec_h264 ! videoconvert ! videoscale ! capsfilter caps=\"video/x-raw, width="
        ++ toString width ++ ", height=" ++ toString height
        ++ "\" ! pngenc snapshot=false ! appsink name=sink")
  | Container.RawVideo, Codec.H264 =>
      Except.ok ("udpsrc port=" ++ toString ingest_port
        ++ " caps = \"application/x-rtp, media=(string)video, clock-rate=(int)90000, encoding-name=(string)H264, payload=(int)96\" ! rtph264depay ! decodebin ! videoconvert ! videoscale ! capsfilter caps=\"video/x-raw, width="
        ++ toString width ++ ", height=" ++ toString height
        ++ "\" ! pngenc snapshot=false ! appsink name=sink")
  | _, _ =>
      Except.error ("Container (" ++ container.debugStr ++ ") and Codec ("
        ++ codec.debugStr ++ ") not available")

end video_stream

namespace actions

open models

/-- `Transition` from `src/src/actions.rs` line 31: a pair of video
modes (start, end). -/
structure Transition where
  start : VideoMode
  fin : VideoMode
deriving DecidableEq, Repr

/-- The state of an `ActionExecutor` from `src/src/actions.rs` lines
42-47, minus the action object itself: the transition it is registered
for, the last observed mode, and the instant of the last successful
call.  Instants are wall-clock milliseconds (`std::time::Instant`). -/
structure ActionExecutor where
  transition : Transition
  last_mode : Option VideoMode
  last_call : Option Nat
deriving DecidableEq, Repr

/-- `ActionExecutor::allowed_to_run` (lines 90-95): true iff no previous
call or more than 5 seconds (5000 ms) elapsed since it.
`Instant::elapsed` is `now - last_call`, which never underflows since
the instant was taken earlier; `Nat` subtraction agrees on that domain. -/
def allowed_to_run (e : ActionExecutor) (now : Nat) : Bool :=
  match e.last_call with
  | none => true
  | some last_call => now - last_call > 5000

/-- The decision inside `ActionExecutor::call_action` (lines 76-84): the
action is invoked iff a last mode exists, `Transition(last_mode, mode)`
equals the registered transition, and the cooldown allows it. -/
def call_action_fires (e : ActionExecutor) (mode : VideoMode) (now : Nat) : Bool :=
  match e.last_mode with
  | none => false
  | some last_mode =>
      decide (Transition.mk last_mode mode = e.transition) && allowed_to_run e now

/-- `ActionExecutor::execute` (lines 61-72).  The action itself is an
outbound HTTP call; its result is passed in as `actionOk`.  Returns the
new executor state and whether the action was invoked.  On a successful
invocation `last_call` becomes `now`; on a failed one it is left alone;
`last_mode` is always set to the event's mode. -/
def ActionExecutor.execute (e : ActionExecutor) (mode : VideoMode) (now : Nat)
    (actionOk : Bool) : ActionExecutor × Bool :=
  let fires := call_action_fires e mode now
  let e' := if fires && actionOk then { e with last_call := some now } else e
  ({ e' with last_mode := some mode }, fires)

end actions

end Hawkeye

namespace Hawkeye

namespace handlers

/-- Claim C1: the derived watcher status is a total, pure function of the
workload's `target_status` label and its observed `available_replicas`:
`replicas > 0` with target `running` yields `Running`; `replicas == 0` (or
absent) with target `ready` yields `Ready`; the two mismatched
combinations yield `Updating` (the spec's "Pending"); a workload with no
status present, or with a missing or unrecognised `target_status` label,
yields `Error`.  The right-hand side is a total match, so the cases are
exhaustive. -/
theorem get_watcher_status_table (d : Deployment) :
    get_watcher_status d =
      match d.status, targetLabel d with
      | none, _ => Status.Error
      | some _, none => Status.Error
      | some st, some s =>
          if s = "running" then
            (if (st.available_replicas.getD 0) > 0 then Status.Running else Status.Updating)
          else if s = "ready" then
            (if (st.available_replicas.getD 0) > 0 then Status.Updating else Status.Ready)
          else Status.Error := by
  rcases d with ⟨labels, status⟩
  cases labels with
  | none =>
      cases status with
      | none => rfl
      | some st =>
          by_cases h : (st.available_replicas.getD 0) > 0 <;>
            simp [get_watcher_status, targetLabel, h]
  | some l =>
      cases status with
      | none =>
          cases hl : l.lookup "target_status" <;>
            simp [get_watcher_status, targetLabel, hl]
      | some st =>
          cases hl : l.lookup "target_status" with
          | none =>
              by_cases h : (st.available_replicas.getD 0) > 0 <;>
                simp [get_watcher_status, targetLabel, hl, h]
          | some s =>
              rcases lt_or_le 0 (st.available_replicas.getD 0) with h | h
              · by_cases h1 : s = "running" <;> by_cases h2 : s = "ready" <;>
                  by_cases h3 : s = "updating" <;> by_cases h4 : s = "error" <;>
                  simp_all [get_watcher_status, targetLabel, parseStatus]
              · have h' : ¬ (0 < st.available_replicas.getD 0) := not_lt.mpr h
                by_cases h1 : s = "running" <;> by_cases h2 : s = "ready" <;>
                  by_cases h3 : s = "updating" <;> by_cases h4 : s = "error" <;>
                  simp_all [get_watcher_status, targetLabel, parseStatus, if_neg h']

/-- Claim C6: `start_watcher` behaves by case on the looked-up workload:
missing workload gives 404; derived status `Running` gives 409;
`Updating` (the spec's "Pending") gives 409; `Error` gives 406 with the
message "Watcher in error state cannot be set to running"; and only in
status `Ready` does it scale the workload to 1 replica and set the
`target_status` label to `Running`, returning 200. -/
theorem start_watcher_cases (od : Option Deployment) :
    (od = none → start_watcher od = { code := 404, message := none, ops := [] }) ∧
    (∀ d, od = some d →
      (get_watcher_status d = Status.Running →
        start_watcher od = ⟨409, some "Watcher is already running", []⟩) ∧
      (get_watcher_status d = Status.Updating →
        start_watcher od = ⟨409, some "Watcher is updating", []⟩) ∧
      (get_watcher_status d = Status.Error →
        start_watcher od = ⟨406, some "Watcher in error state cannot be set to running", []⟩) ∧
      (get_watcher_status d = Status.Ready →
        start_watcher od = ⟨200, some "Watcher is starting",
          [K8sOp.patchScale 1, K8sOp.patchTargetStatus Status.Running]⟩)) := by
  constructor
  · rintro rfl; rfl
  · rintro d rfl
    refine ⟨fun h => ?_, fun h => ?_, fun h => ?_, fun h => ?_⟩ <;> simp [start_watcher, h]

/-- Witness for claim C6: a deployment whose `target_status` label is
`ready` and whose status reports zero available replicas derives status
`Ready`, so starting it scales to 1 and flips the label. -/
theorem start_watcher_cases_witness :
    start_watcher (some ⟨some [("target_status", "ready")], some ⟨some 0⟩⟩) =
      ⟨200, some "Watcher is starting",
        [K8sOp.patchScale 1, K8sOp.patchTargetStatus Status.Running]⟩ :=
  ((start_watcher_cases _).2 _ rfl).2.2.2 (by decide)

/-- Claim C7: `delete_watcher` issues deletions of the workload, the
config object, and the ingress, in that order; it returns 404 iff the
ingress (service) deletion reports an error, while the outcomes of the
workload and config deletions never change the response; when the
ingress deletion succeeds the delete returns 200. -/
theorem delete_watcher_spec (id : String) (dd cd sd : DeleteOutcome) :
    ((delete_watcher id dd cd sd).2 =
      ["hawkeye-deploy-" ++ id, "hawkeye-config-" ++ id, "hawkeye-vid-svc-" ++ id]) ∧
    ((delete_watcher id dd cd sd).1.code = 404 ↔ sd = DeleteOutcome.err) ∧
    (sd = DeleteOutcome.ok →
      (delete_watcher id dd cd sd).1 =
        ⟨200, some "Watcher has been deleted", []⟩) ∧
    (delete_watcher id dd cd sd = delete_watcher id DeleteOutcome.ok DeleteOutcome.ok sd) := by
  cases sd <;> cases dd <;> cases cd <;> simp [delete_watcher]

/-- Witness for claim C7: deleting a watcher whose workload and config
deletions both error still returns 200 when the service deletion
succeeds. -/
theorem delete_watcher_spec_witness :
    (delete_watcher "w1" DeleteOutcome.err DeleteOutcome.err DeleteOutcome.ok).1 =
      ⟨200, some "Watcher has been deleted", []⟩ :=
  (delete_watcher_spec "w1" DeleteOutcome.err DeleteOutcome.err DeleteOutcome.ok).2.2.1 rfl

end handlers

namespace actions

open models

/-- Claim C2: `allowed_to_run` is true iff `last_call` is absent or more
than 5 seconds elapsed since it; consequently an executor whose
`last_call` is `t0` never invokes its action for an event processed at a
wall time in the interval `(t0, t0 + 5s]` (and `last_call` stays `t0`
there); and `last_call` moves only when the action was invoked and
returned success, in which case it becomes `now`. -/
theorem cooldown_spec (e : ActionExecutor) (now t0 : Nat) (mode : VideoMode)
    (actionOk : Bool) :
    (allowed_to_run e now = true ↔
      (e.last_call = none ∨ ∃ t, e.last_call = some t ∧ 5000 < now - t)) ∧
    (e.last_call = some t0 → t0 < now → now ≤ t0 + 5000 →
      (e.execute mode now actionOk).2 = false ∧
      (e.execute mode now actionOk).1.last_call = some t0) ∧
    ((e.execute mode now actionOk).1.last_call ≠ e.last_call →
      (e.execute mode now actionOk).2 = true ∧ actionOk = true ∧
      (e.execute mode now actionOk).1.last_call = some now) := by
  refine ⟨?_, ?_, ?_⟩
  · cases hc : e.last_call with
    | none => simp [allowed_to_run, hc]
    | some t => simp [allowed_to_run, hc]
  · intro h1 h2 h3
    have hal : allowed_to_run e now = false := by
      simp only [allowed_to_run, h1, decide_eq_false_iff_not]
      omega
    have hf : call_action_fires e mode now = false := by
      cases hm : e.last_mode <;> simp [call_action_fires, hm, hal]
    simp [ActionExecutor.execute, hf, h1]
  · intro hne
    by_cases hf : (call_action_fires e mode now && actionOk) = true
    · rw [Bool.and_eq_true] at hf
      exact ⟨hf.1, hf.2, by simp [ActionExecutor.execute, hf.1, hf.2]⟩
    · exfalso
      rw [Bool.and_eq_true] at hf
      exact hne (by simp [ActionExecutor.execute, hf])

/-- Witness for claim C2: an executor whose transition matched and whose
last successful call was at 1000 ms does not fire again at 3000 ms
(within the 5 s cooldown), and its `last_call` is unchanged. -/
theorem cooldown_spec_witness :
    ((ActionExecutor.mk ⟨VideoMode.Content, VideoMode.Slate⟩ (some VideoMode.Content)
        (some 1000)).execute VideoMode.Slate 3000 true).2 = false ∧
    ((ActionExecutor.mk ⟨VideoMode.Content, VideoMode.Slate⟩ (some VideoMode.Content)
        (some 1000)).execute VideoMode.Slate 3000 true).1.last_call = some 1000 :=
  (cooldown_spec _ 3000 1000 VideoMode.Slate true).2.1 rfl (by decide) (by decide)

/-- Claim C3: an executor registered for transition `(a, b)` invokes its
action on a `Mode(m)` event only when its recorded `last_mode` is
`some a`, `m` equals `b` and the cooldown allows it; the first mode event
an executor processes never triggers the action and only records the
mode; and after every mode event `last_mode` equals `some m`. -/
theorem transition_specificity (e : ActionExecutor) (mode : VideoMode) (now : Nat)
    (actionOk : Bool) :
    ((e.execute mode now actionOk).2 = true →
      e.last_mode = some e.transition.start ∧ mode = e.transition.fin ∧
      allowed_to_run e now = true) ∧
    (e.last_mode = none →
      (e.execute mode now actionOk).2 = false ∧
      (e.execute mode now actionOk).1 = { e with last_mode := some mode }) ∧
    ((e.execute mode now actionOk).1.last_mode = some mode) := by
  refine ⟨?_, ?_, ?_⟩
  · intro h
    cases hm : e.last_mode with
    | none => simp [ActionExecutor.execute, call_action_fires, hm] at h
    | some lm =>
        simp only [ActionExecutor.execute, call_action_fires, hm,
          Bool.and_eq_true, decide_eq_true_eq] at h
        obtain ⟨ht, hal⟩ := h
        refine ⟨?_, ?_, hal⟩
        · rw [← ht]
        · rw [← ht]
  · intro hm
    simp [ActionExecutor.execute, call_action_fires, hm]
  · simp [ActionExecutor.execute]

/-- Witness for claim C3: an executor for `(Content, Slate)` that last
saw `Content` and has never called its action fires on a `Slate` event,
so both sides of the specificity condition are realised. -/
theorem transition_specificity_witness :
    (ActionExecutor.mk ⟨VideoMode.Content, VideoMode.Slate⟩ (some VideoMode.Content)
        none).last_mode =
      some (ActionExecutor.mk ⟨VideoMode.Content, VideoMode.Slate⟩ (some VideoMode.Content)
        none).transition.start ∧
    VideoMode.Slate =
      (ActionExecutor.mk ⟨VideoMode.Content, VideoMode.Slate⟩ (some VideoMode.Content)
        none).transition.fin ∧
    allowed_to_run (ActionExecutor.mk ⟨VideoMode.Content, VideoMode.Slate⟩
      (some VideoMode.Content) none) 0 = true :=
  (transition_specificity _ VideoMode.Slate 0 true).1 (by decide)

end actions

namespace models

/-- Counterexample to claim C5: a watcher whose slate URL and port are
valid but whose single action URL has no scheme at all passes
`Watcher::is_valid`, while the claim's validity predicate (with its
action-URL conjunct) rejects it. -/
theorem is_valid_no_action_url_check :
    Watcher.is_valid watcherNoSchemeAction = true ∧
    claimValid watcherNoSchemeAction = false := by
  exact ⟨rfl, rfl⟩

/-- Claim C5 as amended: watcher validation succeeds iff the slate URL
begins with `http://`, `https://` or `file://` and the ingest port lies
strictly between 1024 and 60000; action URLs are not inspected — the
result is invariant under replacing the transitions (and with them every
action) wholesale. -/
theorem is_valid_iff (w : Watcher) :
    (w.is_valid = true ↔
      ((strStartsWith w.slate_url "http://" || strStartsWith w.slate_url "https://"
        || strStartsWith w.slate_url "file://") = true ∧
       1024 < w.source.ingest_port ∧ w.source.ingest_port < 60000)) ∧
    (∀ ts, Watcher.is_valid { w with transitions := ts } = w.is_valid) := by
  constructor
  · cases hb : (strStartsWith w.slate_url "http://" || strStartsWith w.slate_url "https://"
      || strStartsWith w.slate_url "file://") <;>
      simp [Watcher.is_valid, Source.is_valid, hb, Bool.and_eq_true, decide_eq_true_eq]
  · intro ts
    rfl

/-- Round trip for `VideoMode`. -/
theorem videoMode_roundtrip (v : VideoMode) : VideoMode.fromJson (VideoMode.toJson v) = some v := by
  cases v <;> rfl

/-- Round trip for `Status`. -/
theorem status_roundtrip (s : Status) : Status.fromJson (Status.toJson s) = some s := by
  cases s <;> rfl

/-- Round trip for `HttpMethod`. -/
theorem httpMethod_roundtrip (m : HttpMethod) :
    HttpMethod.fromJson (HttpMethod.toJson m) = some m := by
  cases m <;> rfl

/-- Round trip for `HttpAuth`. -/
theorem httpAuth_roundtrip (a : HttpAuth) : HttpAuth.fromJson (HttpAuth.toJson a) = some a := by
  cases a
  rfl

/-- Round trip for the string-valued `headers` object. -/
theorem headerPairs_roundtrip (hs : List (String × String)) :
    headerPairs (hs.map (fun p => (p.1, Json.str p.2))) = some hs := by
  induction hs with
  | nil => rfl
  | cons p rest ih => simp [headerPairs, asStr, ih]

/-- Round trip for `headers`. -/
theorem headers_roundtrip (hs : List (String × String)) :
    headersFromJson (headersToJson hs) = some hs := by
  simp [headersToJson, headersFromJson, headerPairs_roundtrip]

set_option maxHeartbeats 1600000 in
/-- Round trip for the tagged field list of an `HttpCall`. -/
theorem httpCall_fields_roundtrip (c : HttpCall) :
    HttpCall.fromFields (("type", Json.str "http_call") :: c.fieldsToJson) = some c := by
  rcases c with ⟨m, u, d, au, hs, b, r, t⟩
  cases d <;> cases au <;> cases hs <;> cases b <;> cases r <;> cases t <;>
    simp [HttpCall.fromFields, HttpCall.fieldsToJson, optField, getOptWith, asStr, asNat,
      headers_roundtrip, httpAuth_roundtrip, httpMethod_roundtrip, List.lookup]

/-- Round trip for `Action`. -/
theorem action_roundtrip (a : Action) : Action.fromJson (Action.toJson a) = some a := by
  cases a with
  | HttpCall c =>
      simp [Action.toJson, Action.fromJson, asStr, httpCall_fields_roundtrip, List.lookup]

/-- Round trip for element-wise array deserialisation. -/
theorem parseList_roundtrip (f : Json → Option α) (g : α → Json)
    (hfg : ∀ a, f (g a) = some a) (l : List α) :
    parseList f (l.map g) = some l := by
  induction l with
  | nil => rfl
  | cons a rest ih => simp [parseList, hfg, ih]

/-- Round trip for `Transition`. -/
theorem transition_json_roundtrip (t : Transition) :
    Transition.fromJson (Transition.toJson t) = some t := by
  rcases t with ⟨f, g, acts⟩
  cases f <;> cases g <;>
    simp [Transition.toJson, Transition.fromJson, VideoMode.toJson, VideoMode.fromJson,
      List.lookup, parseList_roundtrip Action.fromJson Action.toJson action_roundtrip]

/-- Round trip for `Source`. -/
theorem source_roundtrip (s : Source) : Source.fromJson (Source.toJson s) = some s := by
  rcases s with ⟨p, c, k, tr⟩
  cases c <;> cases k <;> cases tr <;> rfl

/-- Claim C9: for every watcher that passes validation (in fact for
every watcher), deserialising its serialisation yields the watcher back
— so in particular equality holds ignoring the server-derived fields —
and serialisation omits the optional fields that are absent. -/
theorem watcher_serde_roundtrip (w : Watcher) (_hv : w.is_valid = true) :
    Watcher.fromJson (Watcher.toJson w) = some w ∧
    (w.id = none → (Watcher.toJson w).hasKey "id" = false) ∧
    (w.description = none → (Watcher.toJson w).hasKey "description" = false) ∧
    (w.status = none → (Watcher.toJson w).hasKey "status" = false) := by
  rcases w with ⟨id, d, su, st, src, ts⟩
  refine ⟨?_, ?_, ?_, ?_⟩
  · cases id <;> cases d <;> cases st <;>
      simp [Watcher.toJson, Watcher.fromJson, optField, getOptWith, asStr, List.lookup,
        status_roundtrip, source_roundtrip,
        parseList_roundtrip Transition.fromJson Transition.toJson transition_json_roundtrip]
  · rintro rfl
    cases d <;> cases st <;> rfl
  · rintro rfl
    cases id <;> cases st <;> rfl
  · rintro rfl
    cases id <;> cases d <;> rfl

/-- Witness for claim C9: the fixture-shaped watcher is valid, and its
serialisation parses back to itself while omitting nothing it should
not. -/
theorem watcher_serde_roundtrip_witness :
    Watcher.fromJson (Watcher.toJson watcherFixture) = some watcherFixture :=
  (watcher_serde_roundtrip watcherFixture rfl).1

end models

namespace auth

/-- `removeAllFuel` on the empty list is the empty list for any fuel. -/
theorem removeAllFuel_nil (pat : List Char) (fuel : Nat) :
    removeAllFuel pat fuel [] = [] := by
  cases fuel <;> rfl

/-- The fuel of `removeAllFuel` is irrelevant once it bounds the input
length. -/
theorem removeAllFuel_congr (pat : List Char) (f1 : Nat) :
    ∀ (f2 : Nat) (s : List Char), s.length ≤ f1 → s.length ≤ f2 →
      removeAllFuel pat f1 s = removeAllFuel pat f2 s := by
  induction f1 with
  | zero =>
      intro f2 s h1 _
      have hs : s = [] := List.eq_nil_of_length_eq_zero (Nat.le_zero.mp h1)
      subst hs
      simp [removeAllFuel_nil]
  | succ f ih =>
      intro f2 s h1 h2
      cases s with
      | nil => simp [removeAllFuel_nil]
      | cons c rest =>
          cases f2 with
          | zero => simp at h2
          | succ f2' =>
              simp only [removeAllFuel]
              by_cases hc : (!pat.isEmpty && leadingMatch pat (c :: rest)) = true
              · rw [if_pos hc, if_pos hc]
                have hp : 1 ≤ pat.length := by
                  cases pat with
                  | nil => simp at hc
                  | cons p ps => simp
                have hd : (List.drop pat.length (c :: rest)).length ≤ f := by
                  simp only [List.length_drop, List.length_cons]
                  simp only [List.length_cons] at h1
                  omega
                have hd2 : (List.drop pat.length (c :: rest)).length ≤ f2' := by
                  simp only [List.length_drop, List.length_cons]
                  simp only [List.length_cons] at h2
                  omega
                exact ih f2' _ hd hd2
              · rw [if_neg hc, if_neg hc]
                have hr : rest.length ≤ f := by
                  simp only [List.length_cons] at h1
                  omega
                have hr2 : rest.length ≤ f2' := by
                  simp only [List.length_cons] at h2
                  omega
                exact congrArg (c :: ·) (ih f2' rest hr hr2)

/-- A pattern is always a leading match of itself followed by anything. -/
theorem leadingMatch_append_self (p l : List Char) :
    leadingMatch p (p ++ l) = true := by
  induction p with
  | nil => rfl
  | cons c cs ih => simp [leadingMatch, ih]

/-- Deleting a nonempty pattern from a list that starts with it first
strips that occurrence. -/
theorem removeAll_append_self (c : Char) (ps l : List Char) :
    removeAll (c :: ps) ((c :: ps) ++ l) = removeAll (c :: ps) l := by
  have hm : leadingMatch (c :: ps) (c :: (ps ++ l)) = true := by
    simpa using leadingMatch_append_self (c :: ps) l
  have hdrop : List.drop (ps.length + 1) (c :: (ps ++ l)) = l := by
    have h := List.drop_left (c :: ps) l
    simp only [List.length_cons, List.cons_append] at h
    exact h
  have hstep : removeAll (c :: ps) ((c :: ps) ++ l) =
      removeAllFuel (c :: ps) ((ps ++ l).length) l := by
    simp [removeAll, removeAllFuel, hm, hdrop]
  rw [hstep]
  exact removeAllFuel_congr _ _ _ _ (by simp only [List.length_append]; omega) (le_refl _)

/-- Claim C10: the bearer-token check accepts a header iff deleting
every occurrence of `"Bearer "` from it yields exactly the fixed token;
in particular (for a token that itself contains no `"Bearer "`
occurrence, which deletion would mangle) the bare token, the token with
the standard prefix, and the token with the prefix repeated are all
accepted, and any header whose residue differs from the token is
rejected. -/
theorem verify_token_spec (tok hdr : String)
    (hnb : removeAll bearerPat tok.toList = tok.toList) :
    (verify_token hdr tok = true ↔ removeAll bearerPat hdr.toList = tok.toList) ∧
    verify_token tok tok = true ∧
    verify_token ("Bearer " ++ tok) tok = true ∧
    verify_token ("Bearer " ++ ("Bearer " ++ tok)) tok = true := by
  have happ : ∀ s : String, ("Bearer " ++ s).toList = bearerPat ++ s.toList := by
    intro s
    rfl
  have hstrip : ∀ l : List Char,
      removeAll bearerPat (bearerPat ++ l) = removeAll bearerPat l := by
    intro l
    exact removeAll_append_self 'B' "earer ".toList l
  refine ⟨?_, ?_, ?_, ?_⟩
  · simp [verify_token]
  · show (removeAll bearerPat tok.toList == tok.toList) = true
    rw [hnb]
    simp
  · rw [verify_token, happ, hstrip, hnb]
    simp
  · rw [verify_token, happ, happ, ← List.append_assoc]
    rw [show bearerPat ++ bearerPat ++ tok.toList = bearerPat ++ (bearerPat ++ tok.toList)
      from List.append_assoc _ _ _]
    rw [hstrip, hstrip, hnb]
    simp

/-- Witness for claim C10 at the token `"s3cret"`: the standard
`Bearer`-prefixed header is accepted. -/
theorem verify_token_spec_witness :
    verify_token ("Bearer " ++ "s3cret") "s3cret" = true :=
  (verify_token_spec "s3cret" "x" rfl).2.2.1

end auth

namespace img_detector

/-- Claim C4: `is_match` returns true iff the dissimilarity score of
the frame against the stored slate, scaled by 1000 and truncated to an
integer, is at most 900; and whenever the comparison is reflexive (a
byte-identical frame scores 0, as dssim guarantees) the scaled score is
0 and the frame matches. -/
theorem is_match_threshold (compare : List Nat → List Nat → ℚ)
    (hself : ∀ x, compare x x = 0) (slate frame : List Nat) :
    (is_match compare slate frame = true ↔
      (⌊compare slate frame * 1000⌋).toNat ≤ 900) ∧
    (⌊compare slate slate * 1000⌋).toNat = 0 ∧
    is_match compare slate slate = true := by
  refine ⟨?_, ?_, ?_⟩
  · simp [is_match]
  · simp [hself]
  · simp [is_match, hself]

/-- Witness for claim C4: with a comparison that scores identical
buffers 0 and distinct ones 1, a frame equal to the slate matches. -/
theorem is_match_threshold_witness :
    is_match (fun a b : List Nat => if a = b then (0 : ℚ) else 1) [7, 7] [7, 7] = true :=
  (is_match_threshold _ (fun x => by simp) [7, 7] [7, 7]).2.2

end img_detector

namespace video_stream

/-- Claim C8: pipeline construction succeeds exactly for the container
and codec pairs `(MpegTs, H264)` and `(RawVideo, H264)`; every other
combination fails at construction, before any stream is ingested, with
the unsupported-combination error message. -/
theorem create_pipeline_supported (c : Container) (k : Codec) (p w h : Nat) :
    ((∃ d, create_pipeline c k p w h = Except.ok d) ↔
      ((c = Container.MpegTs ∨ c = Container.RawVideo) ∧ k = Codec.H264)) ∧
    (¬ ((c = Container.MpegTs ∨ c = Container.RawVideo) ∧ k = Codec.H264) →
      create_pipeline c k p w h =
        Except.error ("Container (" ++ c.debugStr ++ ") and Codec ("
          ++ k.debugStr ++ ") not available")) := by
  cases c <;> cases k <;>
    simp [create_pipeline, Container.debugStr, Codec.debugStr]

/-- Witness for claim C8: the `(Fmp4, H264)` pair is rejected at
construction with the unsupported error. -/
theorem create_pipeline_supported_witness :
    create_pipeline Container.Fmp4 Codec.H264 5000 120 68 =
      Except.error ("Container (" ++ Container.Fmp4.debugStr ++ ") and Codec ("
        ++ Codec.H264.debugStr ++ ") not available") :=
  (create_pipeline_supported Container.Fmp4 Codec.H264 5000 120 68).2 (by simp)

end video_stream

end Hawkeye
